import Mathlib

/-!
# PhysicallyBasedLighting: `Common.h` and `VirtualCamera.h`

A shallow embedding of the two headers of the demo.

* `Common.h` declares the plain aggregate `MaterialConstants`.
* `VirtualCamera.h` declares the interface of `VirtualCamera`: seven methods
  and four properties.  The method bodies live in `VirtualCamera.m`, which is
  not among the sources; what is said about them is taken from the written
  specification and marked as such.
-/

namespace PBR

/-! ## Scalars -/

/-- C `float`: an IEEE-754 binary32 number, kept as its 32-bit pattern.
Storing a `float` in a field and loading it again preserves the pattern. -/
structure CFloat where
  bits : Fin (2 ^ 32)
deriving DecidableEq

/-- The `float` whose pattern is the low 32 bits of `n`. -/
def CFloat.ofBits (n : Nat) : CFloat :=
  ⟨⟨n % 2 ^ 32, Nat.mod_lt n (by decide)⟩⟩

/-- Sign bit of a binary32 pattern. -/
def CFloat.sign (f : CFloat) : Nat := f.bits.val / 2 ^ 31

/-- Biased exponent (8 bits) of a binary32 pattern. -/
def CFloat.exponent (f : CFloat) : Nat := (f.bits.val / 2 ^ 23) % 2 ^ 8

/-- Fraction (23 bits) of a binary32 pattern. -/
def CFloat.fraction (f : CFloat) : Nat := f.bits.val % 2 ^ 23

/-- Numeric value of a finite binary32 pattern, scaled by `2 ^ 149` so that it
is an integer; `none` for infinities and NaN (exponent field all ones).
Subnormals have value `fraction * 2 ^ (-149)`, normal numbers
`(2 ^ 23 + fraction) * 2 ^ (exponent - 150)`. -/
def CFloat.scaled (f : CFloat) : Option Int :=
  if f.exponent = 255 then none
  else
    let magnitude : Nat :=
      if f.exponent = 0 then f.fraction
      else (2 ^ 23 + f.fraction) * 2 ^ (f.exponent - 1)
    some (if f.sign = 1 then -(magnitude : Int) else (magnitude : Int))

/-- The value is a number in the closed interval `[0, 1]`. -/
def CFloat.inUnitInterval (f : CFloat) : Bool :=
  match f.scaled with
  | some v => decide (0 ≤ v ∧ v ≤ ((2 ^ 149 : Nat) : Int))
  | none => false

/-- The value is strictly greater than zero (`f > 0.0f` in C): a positive
number or positive infinity, never a NaN. -/
def CFloat.isPositive (f : CFloat) : Bool :=
  match f.scaled with
  | some v => decide (0 < v)
  | none => decide (f.sign = 0 ∧ f.fraction = 0)

/-! ## `Common.h` -/

/-- Modelled from the spec: `vector_float3` comes from a platform header that
is not among the sources; the specification describes it as a "3-component
floating-point vector". -/
structure vector_float3 where
  x : CFloat
  y : CFloat
  z : CFloat
deriving DecidableEq

/-- The aggregate `MaterialConstants` of `Common.h`, field by field. -/
structure MaterialConstants where
  baseColor : vector_float3
  specularColor : vector_float3
  ambientColor : vector_float3
  ambientOcclusion : vector_float3
  roughness : CFloat
  metallic : CFloat
  shininess : CFloat
  opacity : CFloat
deriving DecidableEq

/-- The contents of a `MaterialConstants`, read field by field in declaration
order. -/
def MaterialConstants.contents (m : MaterialConstants) :
    vector_float3 × vector_float3 × vector_float3 × vector_float3 ×
      CFloat × CFloat × CFloat × CFloat :=
  (m.baseColor, m.specularColor, m.ambientColor, m.ambientOcclusion,
    m.roughness, m.metallic, m.shininess, m.opacity)

/-- The three floats of a vector, in order. -/
def vector_float3.components (v : vector_float3) : List CFloat :=
  [v.x, v.y, v.z]

/-- The floats a `MaterialConstants` is made of, in declaration order: the
three components of each of the four vectors, then the four scalars. -/
def MaterialConstants.components (m : MaterialConstants) : List CFloat :=
  m.baseColor.components ++ m.specularColor.components ++
    m.ambientColor.components ++ m.ambientOcclusion.components ++
    [m.roughness, m.metallic, m.shininess, m.opacity]

/-! ## `VirtualCamera.h`: the platform types it mentions -/

/-- Modelled from the spec: `CGFloat` comes from a platform header that is not
among the sources.  On the 64-bit targets of the demo it is a C `double`,
kept here as its 64-bit pattern. -/
structure CGFloat where
  bits : Fin (2 ^ 64)
deriving DecidableEq

/-- Sign bit of a binary64 pattern. -/
def CGFloat.sign (f : CGFloat) : Nat := f.bits.val / 2 ^ 63

/-- Biased exponent (11 bits) of a binary64 pattern. -/
def CGFloat.exponent (f : CGFloat) : Nat := (f.bits.val / 2 ^ 52) % 2 ^ 11

/-- Fraction (52 bits) of a binary64 pattern. -/
def CGFloat.fraction (f : CGFloat) : Nat := f.bits.val % 2 ^ 52

/-- The value is zero (`f == 0.0` in C): either signed zero. -/
def CGFloat.isZero (f : CGFloat) : Bool :=
  decide (f.exponent = 0 ∧ f.fraction = 0)

/-- The value is a NaN: exponent field all ones and a nonzero fraction. -/
def CGFloat.isNaN (f : CGFloat) : Bool :=
  decide (f.exponent = 2047 ∧ f.fraction ≠ 0)

/-- The value is strictly less than zero (`f < 0.0` in C): sign bit set, and
neither a zero nor a NaN. -/
def CGFloat.isNegative (f : CGFloat) : Bool :=
  decide (f.sign = 1) && !f.isZero && !f.isNaN

/-- Modelled from the spec: `CGSize` comes from a platform header that is not
among the sources; the camera is "created with an initial screen size", a
width and a height. -/
structure CGSize where
  width : CGFloat
  height : CGFloat
deriving DecidableEq

/-- Modelled from the spec: `CGPoint` comes from a platform header that is not
among the sources; it is the pointer location handed to the drag methods. -/
structure CGPoint where
  x : CGFloat
  y : CGFloat
deriving DecidableEq

/-- Modelled from the spec: `GLKVector3` comes from a platform header that is
not among the sources; `position` is a "3-component vector". -/
structure GLKVector3 where
  x : CFloat
  y : CFloat
  z : CFloat
deriving DecidableEq

/-- Modelled from the spec: `GLKQuaternion` comes from a platform header that
is not among the sources; `orientation` is a "rotation quaternion". -/
structure GLKQuaternion where
  x : CFloat
  y : CFloat
  z : CFloat
  w : CFloat
deriving DecidableEq

/-- Modelled from the spec: `GLKMatrix4` comes from a platform header that is
not among the sources; `viewMatrix` is a "4x4 transform", sixteen floats. -/
structure GLKMatrix4 where
  m : Fin 16 → CFloat

/-! ## `VirtualCamera.h`: the declarations -/

/-- Nullability annotation of an object type. -/
inductive Nullability
  | nonnull
  | nullable
  | unannotated
deriving DecidableEq

/-- The return types that occur in the method declarations of
`VirtualCamera.h`. -/
inductive ReturnType
  | void
  | instancetype (annotated : Nullability)
deriving DecidableEq

/-- The seven methods declared between `@interface` and the properties
(lines 21 to 33 of the header), by selector. -/
inductive Method
  | initWithScreenSize
  | update
  | resizeWithSize
  | startDraggingFromPoint
  | dragToPoint
  | endDrag
  | zoomInOrOut
deriving DecidableEq

/-- Declared return type of each method. -/
def Method.returns : Method → ReturnType
  | .initWithScreenSize => .instancetype .nonnull
  | .update => .void
  | .resizeWithSize => .void
  | .startDraggingFromPoint => .void
  | .dragToPoint => .void
  | .endDrag => .void
  | .zoomInOrOut => .void

/-! ## `VirtualCamera`: state and accessors -/

/-- The observable state of a camera: the storage behind its four declared
properties. -/
structure VirtualCamera where
  position : GLKVector3
  viewMatrix : GLKMatrix4
  orientation : GLKQuaternion
  dragging : Bool

/-- Getter of `dragging`, declared under the name `isDragging`. -/
def VirtualCamera.isDragging (self : VirtualCamera) : Bool :=
  self.dragging

/-! ## `VirtualCamera`: the methods -/

/-- A call of one of the six instance methods, with its argument. -/
inductive Call
  | update (duration : CFloat)
  | resizeWithSize (newSize : CGSize)
  | startDraggingFromPoint (point : CGPoint)
  | dragToPoint (point : CGPoint)
  | endDrag
  | zoomInOrOut (amount : CFloat)
deriving DecidableEq

/-- The method a call invokes. -/
def Call.method : Call → Method
  | .update _ => .update
  | .resizeWithSize _ => .resizeWithSize
  | .startDraggingFromPoint _ => .startDraggingFromPoint
  | .dragToPoint _ => .dragToPoint
  | .endDrag => .endDrag
  | .zoomInOrOut _ => .zoomInOrOut

/-- Modelled from the spec: the method bodies of `VirtualCamera` (the file
`VirtualCamera.m`) are not among the sources.  The specification states two
effects of the bodies, which the method definitions below impose: `dragging`
is "true between a drag-start and drag-end call, false otherwise", and
`viewMatrix` is a "4x4 transform derived from position/orientation, recomputed
on update".  Everything else about the bodies is left open by the
specification and is collected here, so that every result holds for any choice
of it: the formula of the view transform, the camera a screen size gives rise
to, and whatever else each call does to the camera. -/
structure CameraBodies where
  view : GLKVector3 → GLKQuaternion → GLKMatrix4
  created : CGSize → VirtualCamera
  effect : Call → VirtualCamera → VirtualCamera

/-- Modelled from the spec: `initWithScreenSize:`, whose body is missing.  A
new camera is not being dragged. -/
def VirtualCamera.initWithScreenSize (b : CameraBodies) (size : CGSize) :
    VirtualCamera :=
  { b.created size with dragging := false }

/-- Modelled from the spec: `update:`, whose body is missing.  The view matrix
is recomputed from position and orientation; the drag state is kept. -/
def VirtualCamera.update (b : CameraBodies) (self : VirtualCamera)
    (duration : CFloat) : VirtualCamera :=
  let moved := b.effect (.update duration) self
  { moved with
    viewMatrix := b.view moved.position moved.orientation
    dragging := self.dragging }

/-- Modelled from the spec: `resizeWithSize:`, whose body is missing.  The
drag state is kept. -/
def VirtualCamera.resizeWithSize (b : CameraBodies) (self : VirtualCamera)
    (newSize : CGSize) : VirtualCamera :=
  { b.effect (.resizeWithSize newSize) self with dragging := self.dragging }

/-- Modelled from the spec: `startDraggingFromPoint:`, whose body is missing.
A drag begins. -/
def VirtualCamera.startDraggingFromPoint (b : CameraBodies)
    (self : VirtualCamera) (point : CGPoint) : VirtualCamera :=
  { b.effect (.startDraggingFromPoint point) self with dragging := true }

/-- Modelled from the spec: `dragToPoint:`, whose body is missing.  The drag
state is kept. -/
def VirtualCamera.dragToPoint (b : CameraBodies) (self : VirtualCamera)
    (point : CGPoint) : VirtualCamera :=
  { b.effect (.dragToPoint point) self with dragging := self.dragging }

/-- Modelled from the spec: `endDrag`, whose body is missing.  The drag
ends. -/
def VirtualCamera.endDrag (b : CameraBodies) (self : VirtualCamera) :
    VirtualCamera :=
  { b.effect .endDrag self with dragging := false }

/-- Modelled from the spec: `zoomInOrOut:`, whose body is missing.  The drag
state is kept. -/
def VirtualCamera.zoomInOrOut (b : CameraBodies) (self : VirtualCamera)
    (amount : CFloat) : VirtualCamera :=
  { b.effect (.zoomInOrOut amount) self with dragging := self.dragging }

/-- Dispatch of one call to the method it names. -/
def VirtualCamera.perform (b : CameraBodies) (self : VirtualCamera) :
    Call → VirtualCamera
  | .update duration => self.update b duration
  | .resizeWithSize newSize => self.resizeWithSize b newSize
  | .startDraggingFromPoint point => self.startDraggingFromPoint b point
  | .dragToPoint point => self.dragToPoint b point
  | .endDrag => self.endDrag b
  | .zoomInOrOut amount => self.zoomInOrOut b amount

/-- A sequence of calls made on a camera, first call first. -/
def VirtualCamera.run (b : CameraBodies) (self : VirtualCamera)
    (calls : List Call) : VirtualCamera :=
  calls.foldl (VirtualCamera.perform b) self

/-- What a method hands back to its caller: nothing, for a `void` method, or
a reference to a camera, which in Objective-C may be `nil` (here `none`). -/
inductive Returned
  | nothing
  | camera (reference : Option VirtualCamera)

/-- A handed-back value is admissible for a declared return type: nothing for
`void`, a reference for `instancetype`, and not `nil` where the declaration
says `nonnull`. -/
def Returned.conforms : Returned → ReturnType → Bool
  | .nothing, .void => true
  | .nothing, .instancetype _ => false
  | .camera _, .void => false
  | .camera (some _), .instancetype _ => true
  | .camera none, .instancetype .nonnull => false
  | .camera none, .instancetype .nullable => true
  | .camera none, .instancetype .unannotated => true

/-- Modelled from the spec: what `initWithScreenSize:` hands back, its body
being missing.  The camera is "created with an initial screen size", and "no
error paths, validation, or failure conditions are declared or implied": the
size is not examined and the new camera is handed back, never `nil`. -/
def VirtualCamera.initReturned (b : CameraBodies) (size : CGSize) : Returned :=
  .camera (some (VirtualCamera.initWithScreenSize b size))

/-- Modelled from the spec: a call of one of the six instance methods as its
caller sees it, the bodies being missing: the camera after the call and what
is handed back.  The methods are declared `void` and "no error paths,
validation, or failure conditions are declared or implied": the argument is
not examined and nothing is handed back. -/
def VirtualCamera.invoke (b : CameraBodies) (self : VirtualCamera)
    (call : Call) : VirtualCamera × Returned :=
  (self.perform b call, .nothing)

/-- A concrete choice of the parts the specification leaves open, for
evaluating the methods: the view transform copies the position into the last
column of an otherwise zero matrix and the scalar part of the orientation into
its last entry, a new camera sits at the origin, and the calls do nothing
beyond what the specification says. -/
def CameraBodies.sample : CameraBodies where
  view := fun p q =>
    ⟨fun i =>
      if i.val = 12 then p.x
      else if i.val = 13 then p.y
      else if i.val = 14 then p.z
      else if i.val = 15 then q.w
      else CFloat.ofBits 0⟩
  created := fun _ =>
    { position := ⟨CFloat.ofBits 0, CFloat.ofBits 0, CFloat.ofBits 0⟩
      viewMatrix := ⟨fun _ => CFloat.ofBits 0⟩
      orientation :=
        ⟨CFloat.ofBits 0, CFloat.ofBits 0, CFloat.ofBits 0,
          CFloat.ofBits 0x3F800000⟩
      dragging := false }
  effect := fun _ c => c

/-! ## Results on `MaterialConstants` -/

/-- C2: `MaterialConstants` consists of exactly eight fields, in the order
`baseColor`, `specularColor`, `ambientColor`, `ambientOcclusion` (each a
3-component float vector), `roughness`, `metallic`, `shininess`, `opacity`
(each a float).  The aggregate initialised with eight values in that order has
them in the fields of those names, in that order; reading the eight fields is
a one-to-one correspondence with the 8-tuples of four vectors followed by four
floats, so there is no other field; and every value has the same fixed shape:
sixteen floats, the components of the four vectors followed by the four
scalars, which determine the value. -/
theorem MaterialConstants.eight_fields_in_order :
    (∀ (bc sc ac ao : vector_float3) (r me sh op : CFloat),
      (MaterialConstants.mk bc sc ac ao r me sh op).contents =
          (bc, sc, ac, ao, r, me, sh, op) ∧
      MaterialConstants.mk bc sc ac ao r me sh op =
          { baseColor := bc, specularColor := sc, ambientColor := ac,
            ambientOcclusion := ao, roughness := r, metallic := me,
            shininess := sh, opacity := op }) ∧
    Function.Bijective MaterialConstants.contents ∧
    (∀ m : MaterialConstants, m.components.length = 16) ∧
    (∀ f₀ f₁ f₂ f₃ f₄ f₅ f₆ f₇ f₈ f₉ f₁₀ f₁₁ f₁₂ f₁₃ f₁₄ f₁₅ : CFloat,
      (MaterialConstants.mk ⟨f₀, f₁, f₂⟩ ⟨f₃, f₄, f₅⟩ ⟨f₆, f₇, f₈⟩
          ⟨f₉, f₁₀, f₁₁⟩ f₁₂ f₁₃ f₁₄ f₁₅).components =
        [f₀, f₁, f₂, f₃, f₄, f₅, f₆, f₇, f₈, f₉, f₁₀, f₁₁, f₁₂, f₁₃, f₁₄,
          f₁₅]) ∧
    Function.Injective MaterialConstants.components := by
  refine ⟨fun _ _ _ _ _ _ _ _ => ⟨rfl, rfl⟩, ⟨?_, ?_⟩, fun _ => rfl, ?_, ?_⟩
  · intro a b h
    cases a
    cases b
    simp only [MaterialConstants.contents, Prod.mk.injEq] at h
    obtain ⟨h1, h2, h3, h4, h5, h6, h7, h8⟩ := h
    subst h1 h2 h3 h4 h5 h6 h7 h8
    rfl
  · rintro ⟨bc, sc, ac, ao, r, me, sh, op⟩
    exact ⟨⟨bc, sc, ac, ao, r, me, sh, op⟩, rfl⟩
  · intro f₀ f₁ f₂ f₃ f₄ f₅ f₆ f₇ f₈ f₉ f₁₀ f₁₁ f₁₂ f₁₃ f₁₄ f₁₅
    rfl
  · rintro ⟨⟨a₀, a₁, a₂⟩, ⟨a₃, a₄, a₅⟩, ⟨a₆, a₇, a₈⟩, ⟨a₉, a₁₀, a₁₁⟩, a₁₂,
      a₁₃, a₁₄, a₁₅⟩
      ⟨⟨b₀, b₁, b₂⟩, ⟨b₃, b₄, b₅⟩, ⟨b₆, b₇, b₈⟩, ⟨b₉, b₁₀, b₁₁⟩, b₁₂, b₁₃,
        b₁₄, b₁₅⟩ h
    simp only [MaterialConstants.components, vector_float3.components,
      List.cons_append, List.nil_append, List.cons.injEq, and_true] at h
    obtain ⟨h0, h1, h2, h3, h4, h5, h6, h7, h8, h9, h10, h11, h12, h13, h14,
      h15⟩ := h
    subst h0 h1 h2 h3 h4 h5 h6 h7 h8 h9 h10 h11 h12 h13 h14 h15
    rfl

/-- C3: no validation is applied to `MaterialConstants`.  Whatever four
vectors and four floats are given, the aggregate built from them reads back
exactly those values; nothing is rejected or clamped.  This includes values
outside the expected ranges: the instance with roughness `2.0`, metallic
`-1.0`, shininess `0.0` and opacity `1.5` keeps all four as given, although
the first, second and fourth are outside `[0, 1]` and the third is not
positive. -/
theorem MaterialConstants.no_validation :
    (∀ (bc sc ac ao : vector_float3) (r me sh op : CFloat),
      (MaterialConstants.mk bc sc ac ao r me sh op).baseColor = bc ∧
      (MaterialConstants.mk bc sc ac ao r me sh op).specularColor = sc ∧
      (MaterialConstants.mk bc sc ac ao r me sh op).ambientColor = ac ∧
      (MaterialConstants.mk bc sc ac ao r me sh op).ambientOcclusion = ao ∧
      (MaterialConstants.mk bc sc ac ao r me sh op).roughness = r ∧
      (MaterialConstants.mk bc sc ac ao r me sh op).metallic = me ∧
      (MaterialConstants.mk bc sc ac ao r me sh op).shininess = sh ∧
      (MaterialConstants.mk bc sc ac ao r me sh op).opacity = op) ∧
    (∀ v : vector_float3,
      (MaterialConstants.mk v v v v (CFloat.ofBits 0x40000000)
          (CFloat.ofBits 0xBF800000) (CFloat.ofBits 0)
          (CFloat.ofBits 0x3FC00000)).contents =
        (v, v, v, v, CFloat.ofBits 0x40000000, CFloat.ofBits 0xBF800000,
          CFloat.ofBits 0, CFloat.ofBits 0x3FC00000)) ∧
    (CFloat.ofBits 0x40000000).inUnitInterval = false ∧
    (CFloat.ofBits 0xBF800000).inUnitInterval = false ∧
    (CFloat.ofBits 0).isPositive = false ∧
    (CFloat.ofBits 0x3FC00000).inUnitInterval = false := by
  refine ⟨?_, ?_, by decide, by decide, by decide, by decide⟩
  · intro bc sc ac ao r me sh op
    exact ⟨rfl, rfl, rfl, rfl, rfl, rfl, rfl, rfl⟩
  · intro v
    rfl

/-- C6: `MaterialConstants` is a plain value.  Replacing any one of the eight
fields by a new value yields an aggregate with that value in the field and
the other seven fields as they were, and two aggregates are equal exactly
when all eight fields are equal. -/
theorem MaterialConstants.fields_independent :
    (∀ (m : MaterialConstants) (v : vector_float3) (s : CFloat),
      ({ m with baseColor := v }).contents =
          (v, m.specularColor, m.ambientColor, m.ambientOcclusion,
            m.roughness, m.metallic, m.shininess, m.opacity) ∧
      ({ m with specularColor := v }).contents =
          (m.baseColor, v, m.ambientColor, m.ambientOcclusion,
            m.roughness, m.metallic, m.shininess, m.opacity) ∧
      ({ m with ambientColor := v }).contents =
          (m.baseColor, m.specularColor, v, m.ambientOcclusion,
            m.roughness, m.metallic, m.shininess, m.opacity) ∧
      ({ m with ambientOcclusion := v }).contents =
          (m.baseColor, m.specularColor, m.ambientColor, v,
            m.roughness, m.metallic, m.shininess, m.opacity) ∧
      ({ m with roughness := s }).contents =
          (m.baseColor, m.specularColor, m.ambientColor, m.ambientOcclusion,
            s, m.metallic, m.shininess, m.opacity) ∧
      ({ m with metallic := s }).contents =
          (m.baseColor, m.specularColor, m.ambientColor, m.ambientOcclusion,
            m.roughness, s, m.shininess, m.opacity) ∧
      ({ m with shininess := s }).contents =
          (m.baseColor, m.specularColor, m.ambientColor, m.ambientOcclusion,
            m.roughness, m.metallic, s, m.opacity) ∧
      ({ m with opacity := s }).contents =
          (m.baseColor, m.specularColor, m.ambientColor, m.ambientOcclusion,
            m.roughness, m.metallic, m.shininess, s)) ∧
    (∀ a b : MaterialConstants,
      a = b ↔
        a.baseColor = b.baseColor ∧ a.specularColor = b.specularColor ∧
        a.ambientColor = b.ambientColor ∧
        a.ambientOcclusion = b.ambientOcclusion ∧
        a.roughness = b.roughness ∧ a.metallic = b.metallic ∧
        a.shininess = b.shininess ∧ a.opacity = b.opacity) := by
  constructor
  · intro m v s
    exact ⟨rfl, rfl, rfl, rfl, rfl, rfl, rfl, rfl⟩
  · intro a b
    constructor
    · intro h
      subst h
      exact ⟨rfl, rfl, rfl, rfl, rfl, rfl, rfl, rfl⟩
    · rintro ⟨h1, h2, h3, h4, h5, h6, h7, h8⟩
      cases a
      cases b
      simp only at h1 h2 h3 h4 h5 h6 h7 h8
      subst h1 h2 h3 h4 h5 h6 h7 h8
      rfl

/-! ## Results on the state of `VirtualCamera` -/

/-- Splitting off the first call of a sequence that ends inside a drag. -/
theorem Call.open_drag_cons (first : Call) (rest : List Call) :
    (∃ earlier point later,
        first :: rest = earlier ++ Call.startDraggingFromPoint point :: later ∧
          Call.endDrag ∉ later) ↔
      ((∃ point, first = Call.startDraggingFromPoint point) ∧
          Call.endDrag ∉ rest) ∨
        ∃ earlier point later,
          rest = earlier ++ Call.startDraggingFromPoint point :: later ∧
            Call.endDrag ∉ later := by
  constructor
  · rintro ⟨earlier, point, later, h, hlater⟩
    cases earlier with
    | nil =>
      simp only [List.nil_append, List.cons.injEq] at h
      obtain ⟨h1, h2⟩ := h
      subst h1 h2
      exact Or.inl ⟨⟨point, rfl⟩, hlater⟩
    | cons x earlier =>
      simp only [List.cons_append, List.cons.injEq] at h
      obtain ⟨_, h2⟩ := h
      exact Or.inr ⟨earlier, point, later, h2, hlater⟩
  · rintro (⟨⟨point, h⟩, hrest⟩ | ⟨earlier, point, later, h, hlater⟩)
    · exact ⟨[], point, rest, by simp [h], hrest⟩
    · exact ⟨first :: earlier, point, later, by simp [h], hlater⟩

/-- Drag state after a sequence of calls made on an arbitrary camera: the
flag is set exactly when the sequence ends inside a drag, or the camera was
being dragged and the sequence ends no drag. -/
theorem VirtualCamera.dragging_run (b : CameraBodies) (calls : List Call) :
    ∀ c : VirtualCamera, (c.run b calls).dragging = true ↔
      (∃ earlier point later,
          calls = earlier ++ Call.startDraggingFromPoint point :: later ∧
            Call.endDrag ∉ later) ∨
        (c.dragging = true ∧ Call.endDrag ∉ calls) := by
  induction calls with
  | nil =>
    intro c
    simp [VirtualCamera.run]
  | cons first rest ih =>
    intro c
    have hstep : c.run b (first :: rest) = (c.perform b first).run b rest := rfl
    rw [hstep, ih, Call.open_drag_cons]
    generalize (∃ earlier point later,
      rest = earlier ++ Call.startDraggingFromPoint point :: later ∧
        Call.endDrag ∉ later) = inner
    cases first <;>
      simp [VirtualCamera.perform, VirtualCamera.update,
        VirtualCamera.resizeWithSize, VirtualCamera.startDraggingFromPoint,
        VirtualCamera.dragToPoint, VirtualCamera.endDrag,
        VirtualCamera.zoomInOrOut]
    tauto

/-- C1: for a camera created by `initWithScreenSize:` and any sequence of
calls of the six instance methods declared in the header, `isDragging` is true
exactly when the sequence contains a `startDraggingFromPoint:` call with no
`endDrag` call after it, that is, in the states between a drag start and the
`endDrag` that closes it.  So it is false after `initWithScreenSize:`, true
after `startDraggingFromPoint:`, still true after `dragToPoint:`, `update:`,
`resizeWithSize:` and `zoomInOrOut:` calls made before `endDrag`, and false
after `endDrag`. -/
theorem VirtualCamera.isDragging_iff_open_drag (b : CameraBodies)
    (size : CGSize) (calls : List Call) :
    ((VirtualCamera.initWithScreenSize b size).run b calls).isDragging = true ↔
      ∃ earlier point later,
        calls = earlier ++ Call.startDraggingFromPoint point :: later ∧
          Call.endDrag ∉ later := by
  unfold VirtualCamera.isDragging
  rw [VirtualCamera.dragging_run]
  simp [VirtualCamera.initWithScreenSize]

/-- C4: after `update:` the view matrix is the transform determined by the
position and the orientation the camera then has, and by nothing else: two
cameras that have equal position and equal orientation after `update:` have
equal view matrices, whatever the durations passed and whatever the rest of
their states, and that matrix is the view transform of the position and
orientation. -/
theorem VirtualCamera.viewMatrix_update (b : CameraBodies)
    (c₁ c₂ : VirtualCamera) (d₁ d₂ : CFloat)
    (hp : (c₁.update b d₁).position = (c₂.update b d₂).position)
    (ho : (c₁.update b d₁).orientation = (c₂.update b d₂).orientation) :
    (c₁.update b d₁).viewMatrix = (c₂.update b d₂).viewMatrix ∧
      (c₁.update b d₁).viewMatrix =
        b.view (c₁.update b d₁).position (c₁.update b d₁).orientation := by
  have h₁ : (c₁.update b d₁).viewMatrix =
      b.view (c₁.update b d₁).position (c₁.update b d₁).orientation := rfl
  have h₂ : (c₂.update b d₂).viewMatrix =
      b.view (c₂.update b d₂).position (c₂.update b d₂).orientation := rfl
  refine ⟨?_, h₁⟩
  rw [h₁, h₂, hp, ho]

/-- The view-matrix result evaluated on two cameras that differ in view
matrix and drag state and are updated with different durations (`0.0` and one
sixtieth of a second). -/
theorem VirtualCamera.viewMatrix_update_witness :
    ((VirtualCamera.initWithScreenSize CameraBodies.sample
          ⟨⟨0⟩, ⟨0⟩⟩).update CameraBodies.sample (CFloat.ofBits 0)).position =
      (VirtualCamera.update CameraBodies.sample
        { VirtualCamera.initWithScreenSize CameraBodies.sample
            ⟨⟨0x4084000000000000⟩, ⟨0x407E000000000000⟩⟩ with
          viewMatrix := ⟨fun _ => CFloat.ofBits 0x3F800000⟩
          dragging := true }
        (CFloat.ofBits 0x3C888889)).position ∧
    ((VirtualCamera.initWithScreenSize CameraBodies.sample
          ⟨⟨0⟩, ⟨0⟩⟩).update CameraBodies.sample (CFloat.ofBits 0)).orientation =
      (VirtualCamera.update CameraBodies.sample
        { VirtualCamera.initWithScreenSize CameraBodies.sample
            ⟨⟨0x4084000000000000⟩, ⟨0x407E000000000000⟩⟩ with
          viewMatrix := ⟨fun _ => CFloat.ofBits 0x3F800000⟩
          dragging := true }
        (CFloat.ofBits 0x3C888889)).orientation ∧
    ((VirtualCamera.initWithScreenSize CameraBodies.sample
          ⟨⟨0⟩, ⟨0⟩⟩).update CameraBodies.sample (CFloat.ofBits 0)).viewMatrix =
      (VirtualCamera.update CameraBodies.sample
        { VirtualCamera.initWithScreenSize CameraBodies.sample
            ⟨⟨0x4084000000000000⟩, ⟨0x407E000000000000⟩⟩ with
          viewMatrix := ⟨fun _ => CFloat.ofBits 0x3F800000⟩
          dragging := true }
        (CFloat.ofBits 0x3C888889)).viewMatrix ∧
    ((VirtualCamera.initWithScreenSize CameraBodies.sample
          ⟨⟨0⟩, ⟨0⟩⟩).update CameraBodies.sample (CFloat.ofBits 0)).viewMatrix =
      CameraBodies.sample.view
        ((VirtualCamera.initWithScreenSize CameraBodies.sample
          ⟨⟨0⟩, ⟨0⟩⟩).update CameraBodies.sample (CFloat.ofBits 0)).position
        ((VirtualCamera.initWithScreenSize CameraBodies.sample
          ⟨⟨0⟩, ⟨0⟩⟩).update CameraBodies.sample
            (CFloat.ofBits 0)).orientation :=
  ⟨rfl, rfl,
    VirtualCamera.viewMatrix_update CameraBodies.sample
      (VirtualCamera.initWithScreenSize CameraBodies.sample ⟨⟨0⟩, ⟨0⟩⟩)
      { VirtualCamera.initWithScreenSize CameraBodies.sample
          ⟨⟨0x4084000000000000⟩, ⟨0x407E000000000000⟩⟩ with
        viewMatrix := ⟨fun _ => CFloat.ofBits 0x3F800000⟩
        dragging := true }
      (CFloat.ofBits 0) (CFloat.ofBits 0x3C888889) rfl rfl⟩

/-- C7: no operation of `VirtualCamera` has a failure result.  For every
`CGSize`, `initWithScreenSize:` hands back the new camera and never `nil`, as
its `nonnull` declaration requires; this includes a size of width `0.0` and
height `-1.0`.  Each of the other six methods, on every camera and for every
argument, leaves the camera the call produces and hands back nothing, as its
`void` declaration requires, so no call can report an error. -/
theorem VirtualCamera.no_failure_result :
    (∀ (b : CameraBodies) (size : CGSize),
      VirtualCamera.initReturned b size =
          Returned.camera (some (VirtualCamera.initWithScreenSize b size)) ∧
      VirtualCamera.initReturned b size ≠ Returned.camera none ∧
      (VirtualCamera.initReturned b size).conforms
          Method.initWithScreenSize.returns = true) ∧
    (∀ b : CameraBodies,
      VirtualCamera.initReturned b ⟨⟨0⟩, ⟨0xBFF0000000000000⟩⟩ =
        Returned.camera (some (VirtualCamera.initWithScreenSize b
          ⟨⟨0⟩, ⟨0xBFF0000000000000⟩⟩))) ∧
    CGFloat.isZero ⟨0⟩ = true ∧
    CGFloat.isNegative ⟨0xBFF0000000000000⟩ = true ∧
    (∀ (b : CameraBodies) (c : VirtualCamera) (call : Call),
      (c.invoke b call).1 = c.perform b call ∧
      (c.invoke b call).2 = Returned.nothing ∧
      (c.invoke b call).2.conforms call.method.returns = true) := by
  refine ⟨?_, fun _ => rfl, by decide, by decide, ?_⟩
  · intro b size
    refine ⟨rfl, ?_, rfl⟩
    intro h
    have h₁ := Returned.camera.inj h
    exact Option.noConfusion h₁
  · intro b c call
    refine ⟨rfl, rfl, ?_⟩
    cases call <;> rfl

end PBR
